import Mathlib

/-!
Verification of the GitHub-to-S3 batch utility (Vendor-APIs).

The development shallowly embeds the Python sources `github_api.py`,
`s3_uploader.py` and `main.py`.  External effects (the HTTP transport used
by the `requests` library and the S3 `put_object` call issued through
`boto3`) are modelled as oracle functions supplied as parameters; every
embedded operation returns the list of observable events it performs
(outgoing HTTP requests, S3 put calls, log lines) together with its
Python return value.  A raised Python exception is modelled with
`Except.error`; the Python value `None` is modelled with `Option.none`.
-/

/-- Character constants used so that quote and brace characters never appear
as raw literals in the embedding.  `squote` is the ASCII apostrophe,
`dquote` the double quote, `bslash` the backslash, `lbrace` and `rbrace`
the curly braces. -/
def squote : Char := Char.ofNat 39

/-- ASCII double quote. -/
def dquote : Char := Char.ofNat 34

/-- ASCII backslash. -/
def bslash : Char := Char.ofNat 92

/-- ASCII left curly brace. -/
def lbrace : Char := Char.ofNat 123

/-- ASCII right curly brace. -/
def rbrace : Char := Char.ofNat 125

/-- One-character string holding an apostrophe. -/
def apos : String := String.mk [squote]

/-- One-character string holding a left curly brace. -/
def lb : String := String.mk [lbrace]

/-- One-character string holding a right curly brace. -/
def rb : String := String.mk [rbrace]

/-- JSON-compatible Python values: the payloads the provider returns and
the program forwards (dict, list, str, int, bool, None).  Numbers are
modelled as integers; the program never constructs or inspects numeric
payload fields, so fractional numbers are outside the model. -/
inductive Json where
  | null : Json
  | bool (b : Bool) : Json
  | num (n : Int) : Json
  | str (s : String) : Json
  | arr (xs : List Json) : Json
  | obj (kvs : List (String × Json)) : Json

/-- Log levels used by `logger.py` handlers that matter to the claims. -/
inductive LogLevel where
  | debug : LogLevel
  | info : LogLevel
  | error : LogLevel
deriving DecidableEq

/-- Query-parameter mapping passed through to the transport
(`params` argument of `requests.request`). -/
abbrev Params := List (String × String)

/-- Observable events of a run: a log line, an outgoing HTTP request with
its method, URL, headers and params, or an S3 `put_object` call with its
bucket, key and body. -/
inductive Event where
  | log (lvl : LogLevel) (msg : String) : Event
  | httpRequest (method url : String) (headers : List (String × String))
      (params : Option Params) : Event
  | s3Put (bucket key body : String) : Event
deriving DecidableEq

/-- An HTTP response as surfaced by the `requests` library: status code,
reason phrase and raw body text. -/
structure HttpResponse where
  statusCode : Nat
  reason : String
  body : String
deriving DecidableEq

/-- Outcome of `requests.request`: either a `RequestException` raised by the
transport (connection error, timeout, ...) carrying its message, or a
response object of any status code. -/
inductive TransportResult where
  | exn (msg : String) : TransportResult
  | resp (r : HttpResponse) : TransportResult
deriving DecidableEq

/-- The transport oracle: what `requests.request` does for a given method,
URL, header list and params. -/
def Transport := String → String → List (String × String) → Option Params → TransportResult

/-- Outcome of `boto3` `put_object`: a response structure on success, or a
`BotoCoreError` / `ClientError` carrying its message. -/
inductive PutResult where
  | resp (r : Json) : PutResult
  | err (msg : String) : PutResult

/-- The storage oracle: what `put_object` does for a given bucket, key and
body. -/
def S3Service := String → String → String → PutResult

/-! ### JSON text decoding

`requests.Response.json()` decodes the response body with `json.loads`.
The decoder below embeds the fragment of `json.loads` the program can
observe: objects, arrays, double-quoted strings with the simple escapes,
integers, `true`, `false`, `null`, with insignificant whitespace, and a
parse failure (`none`) models the raised `JSONDecodeError`. -/

/-- JSON insignificant whitespace characters. -/
def isJsonWs (c : Char) : Bool :=
  c = Char.ofNat 32 || c = Char.ofNat 9 || c = Char.ofNat 10 || c = Char.ofNat 13

/-- Drop leading JSON whitespace. -/
def skipWs : List Char → List Char
  | [] => []
  | c :: cs => if isJsonWs c then skipWs cs else c :: cs

/-- Decode one JSON string escape character (the character after the
backslash).  The `\uXXXX` form is outside the model. -/
def unescape (c : Char) : Option Char :=
  if c = dquote then some dquote
  else if c = bslash then some bslash
  else if c = Char.ofNat 47 then some (Char.ofNat 47)
  else if c = Char.ofNat 98 then some (Char.ofNat 8)
  else if c = Char.ofNat 102 then some (Char.ofNat 12)
  else if c = Char.ofNat 110 then some (Char.ofNat 10)
  else if c = Char.ofNat 114 then some (Char.ofNat 13)
  else if c = Char.ofNat 116 then some (Char.ofNat 9)
  else none

/-- Read the remainder of a JSON string after its opening double quote,
returning the decoded characters and the input after the closing quote. -/
def parseStringBody : List Char → Option (List Char × List Char)
  | [] => none
  | c :: cs =>
    if c = dquote then some ([], cs)
    else if c = bslash then
      match cs with
      | [] => none
      | e :: cs2 =>
        match unescape e with
        | none => none
        | some d =>
          match parseStringBody cs2 with
          | none => none
          | some (s, rest) => some (d :: s, rest)
    else if c.toNat < 32 then none
    else
      match parseStringBody cs with
      | none => none
      | some (s, rest) => some (c :: s, rest)

/-- Read a JSON integer literal (optional minus sign then digits).  A
following fraction or exponent marker is outside the model and fails. -/
def parseNumber (s : List Char) : Option (Json × List Char) :=
  let negAndRest : Bool × List Char :=
    match s with
    | c :: t => if c = Char.ofNat 45 then (true, t) else (false, s)
    | [] => (false, s)
  let ds := negAndRest.2.takeWhile (fun c => c.isDigit)
  let rest := negAndRest.2.dropWhile (fun c => c.isDigit)
  if ds.isEmpty then none
  else
    match rest with
    | c :: _ =>
      if c = Char.ofNat 46 || c = Char.ofNat 101 || c = Char.ofNat 69 then none
      else
        let n : Nat := ds.foldl (fun a c => a * 10 + (c.toNat - 48)) 0
        some (Json.num (if negAndRest.1 then -(n : Int) else (n : Int)), rest)
    | [] =>
      let n : Nat := ds.foldl (fun a c => a * 10 + (c.toNat - 48)) 0
      some (Json.num (if negAndRest.1 then -(n : Int) else (n : Int)), rest)

/-- Decode a JSON atom: `null`, `true`, `false` or a number. -/
def parseAtom (s : List Char) : Option (Json × List Char) :=
  match s with
  | 'n' :: 'u' :: 'l' :: 'l' :: rest => some (Json.null, rest)
  | 't' :: 'r' :: 'u' :: 'e' :: rest => some (Json.bool true, rest)
  | 'f' :: 'a' :: 'l' :: 's' :: 'e' :: rest => some (Json.bool false, rest)
  | _ => parseNumber s

mutual

/-- Decode one JSON value from the front of the input; fuel bounds the
nesting depth. -/
def parseValue : Nat → List Char → Option (Json × List Char)
  | 0, _ => none
  | Nat.succ fuel, s =>
    match skipWs s with
    | [] => none
    | c :: cs =>
      if c = dquote then
        match parseStringBody cs with
        | none => none
        | some (chars, rest) => some (Json.str (String.mk chars), rest)
      else if c = lbrace then parseObjBody fuel (skipWs cs)
      else if c = Char.ofNat 91 then parseArrBody fuel (skipWs cs)
      else parseAtom (c :: cs)

/-- Decode the inside of a JSON object after the opening brace. -/
def parseObjBody : Nat → List Char → Option (Json × List Char)
  | 0, _ => none
  | Nat.succ fuel, s =>
    match s with
    | [] => none
    | c :: cs =>
      if c = rbrace then some (Json.obj [], cs)
      else
        match parseMembers fuel (c :: cs) with
        | none => none
        | some (kvs, rest) => some (Json.obj kvs, rest)

/-- Decode one or more comma-separated key-value members then the closing
brace. -/
def parseMembers : Nat → List Char → Option (List (String × Json) × List Char)
  | 0, _ => none
  | Nat.succ fuel, s =>
    match s with
    | [] => none
    | c :: cs =>
      if c = dquote then
        match parseStringBody cs with
        | none => none
        | some (key, afterKey) =>
          match skipWs afterKey with
          | [] => none
          | c2 :: cs2 =>
            if c2 = Char.ofNat 58 then
              match parseValue fuel cs2 with
              | none => none
              | some (v, afterVal) =>
                match skipWs afterVal with
                | [] => none
                | c3 :: cs3 =>
                  if c3 = rbrace then some ([(String.mk key, v)], cs3)
                  else if c3 = Char.ofNat 44 then
                    match parseMembers fuel (skipWs cs3) with
                    | none => none
                    | some (kvs, rest) => some ((String.mk key, v) :: kvs, rest)
                  else none
            else none
      else none

/-- Decode the inside of a JSON array after the opening bracket. -/
def parseArrBody : Nat → List Char → Option (Json × List Char)
  | 0, _ => none
  | Nat.succ fuel, s =>
    match s with
    | [] => none
    | c :: cs =>
      if c = Char.ofNat 93 then some (Json.arr [], cs)
      else
        match parseItems fuel (c :: cs) with
        | none => none
        | some (xs, rest) => some (Json.arr xs, rest)

/-- Decode one or more comma-separated array items then the closing
bracket. -/
def parseItems : Nat → List Char → Option (List Json × List Char)
  | 0, _ => none
  | Nat.succ fuel, s =>
    match parseValue fuel s with
    | none => none
    | some (v, afterVal) =>
      match skipWs afterVal with
      | [] => none
      | c :: cs =>
        if c = Char.ofNat 93 then some ([v], cs)
        else if c = Char.ofNat 44 then
          match parseItems fuel (skipWs cs) with
          | none => none
          | some (xs, rest) => some (v :: xs, rest)
        else none

end

/-- The embedded `json.loads`: decode a whole document, requiring the
input to be fully consumed up to trailing whitespace. -/
def parseJson (s : String) : Option Json :=
  match parseValue (s.length + 1) s.data with
  | none => none
  | some (j, rest) => if (skipWs rest).isEmpty then some j else none

/-! ### Python string rendering

`upload_data_to_s3` stores `str(data)`.  The functions below embed the
Python `str`/`repr` rendering of the JSON-compatible values above:
`None`/`True`/`False`, decimal integers, single-quoted string repr with
the standard escapes, bracketed lists and braced dicts with elements
rendered by `repr` and separated by a comma and a space. -/

/-- Lowercase hexadecimal digit. -/
def hexDigit (n : Nat) : Char :=
  if n < 10 then Char.ofNat (48 + n) else Char.ofNat (87 + (n - 10))

/-- Python repr escaping of one character inside a string literal rendered
with quote character `q`: backslash and the quote are backslash-escaped,
newline, carriage return and tab use their mnemonic escapes, other
control characters use a two-digit hex escape. -/
def pyEscapeChar (q c : Char) : List Char :=
  if c = bslash then [bslash, bslash]
  else if c = q then [bslash, q]
  else if c = Char.ofNat 10 then [bslash, Char.ofNat 110]
  else if c = Char.ofNat 13 then [bslash, Char.ofNat 114]
  else if c = Char.ofNat 9 then [bslash, Char.ofNat 116]
  else if c.toNat < 32 || c.toNat = 127 then
    [bslash, Char.ofNat 120, hexDigit (c.toNat / 16), hexDigit (c.toNat % 16)]
  else [c]

/-- Python `repr` of a string: single-quoted, except double-quoted when
the string contains an apostrophe but no double quote. -/
def pyReprStr (s : String) : String :=
  let q : Char := if s.data.contains squote && !(s.data.contains dquote) then dquote else squote
  String.mk (q :: s.data.foldr (fun c acc => pyEscapeChar q c ++ acc) [q])

mutual

/-- Python `repr` of a JSON-compatible value. -/
def pyRepr : Json → String
  | Json.null => "None"
  | Json.bool true => "True"
  | Json.bool false => "False"
  | Json.num n => toString n
  | Json.str s => pyReprStr s
  | Json.arr xs => "[" ++ pyReprItems xs ++ "]"
  | Json.obj kvs => lb ++ pyReprMembers kvs ++ rb

/-- Comma-and-space separated reprs of list items. -/
def pyReprItems : List Json → String
  | [] => ""
  | [x] => pyRepr x
  | x :: y :: rest => pyRepr x ++ ", " ++ pyReprItems (y :: rest)

/-- Comma-and-space separated reprs of dict members. -/
def pyReprMembers : List (String × Json) → String
  | [] => ""
  | [kv] => pyReprStr kv.1 ++ ": " ++ pyRepr kv.2
  | kv :: kv2 :: rest =>
    pyReprStr kv.1 ++ ": " ++ pyRepr kv.2 ++ ", " ++ pyReprMembers (kv2 :: rest)

end

/-- Python `str` of a JSON-compatible value: the string itself for a
string, `repr` otherwise. -/
def pyStr : Json → String
  | Json.str s => s
  | v => pyRepr v

/-- Python `str` applied to a possibly-`None` value, as in
`str(data)` inside `upload_data_to_s3`. -/
def strData : Option Json → String
  | none => "None"
  | some v => pyStr v

/-! ### Spec-side JSON serialization

Used only to compare against the stored string form: the round-trip
claim distinguishes the Python `str` form actually stored from the value
re-serialized as a JSON document.  Modelled from the spec wording
"not the value re-serialized as JSON": a `json.dumps`-style rendering
with double-quoted strings and JSON keyword literals. -/

/-- JSON escaping of one character inside a double-quoted JSON string. -/
def jsonEscapeChar (c : Char) : List Char :=
  if c = bslash then [bslash, bslash]
  else if c = dquote then [bslash, dquote]
  else if c = Char.ofNat 10 then [bslash, Char.ofNat 110]
  else if c = Char.ofNat 13 then [bslash, Char.ofNat 114]
  else if c = Char.ofNat 9 then [bslash, Char.ofNat 116]
  else if c = Char.ofNat 8 then [bslash, Char.ofNat 98]
  else if c = Char.ofNat 12 then [bslash, Char.ofNat 102]
  else if c.toNat < 32 then
    [bslash, Char.ofNat 117, Char.ofNat 48, Char.ofNat 48,
     hexDigit (c.toNat / 16), hexDigit (c.toNat % 16)]
  else [c]

/-- JSON serialization of a string: double-quoted with JSON escapes. -/
def jsonDumpsStr (s : String) : String :=
  String.mk (dquote :: s.data.foldr (fun c acc => jsonEscapeChar c ++ acc) [dquote])

mutual

/-- The value re-serialized as a JSON document (default separators of
`json.dumps`). -/
def jsonDumps : Json → String
  | Json.null => "null"
  | Json.bool true => "true"
  | Json.bool false => "false"
  | Json.num n => toString n
  | Json.str s => jsonDumpsStr s
  | Json.arr xs => "[" ++ jsonDumpsItems xs ++ "]"
  | Json.obj kvs => lb ++ jsonDumpsMembers kvs ++ rb

/-- Comma-and-space separated JSON serializations of list items. -/
def jsonDumpsItems : List Json → String
  | [] => ""
  | [x] => jsonDumps x
  | x :: y :: rest => jsonDumps x ++ ", " ++ jsonDumpsItems (y :: rest)

/-- Comma-and-space separated JSON serializations of object members. -/
def jsonDumpsMembers : List (String × Json) → String
  | [] => ""
  | [kv] => jsonDumpsStr kv.1 ++ ": " ++ jsonDumps kv.2
  | kv :: kv2 :: rest =>
    jsonDumpsStr kv.1 ++ ": " ++ jsonDumps kv.2 ++ ", " ++ jsonDumpsMembers (kv2 :: rest)

end

/-! ### github_api.py -/

/-- The `GitHubAPI` client state: the configured base URL and the header
dictionary built in `__init__`. -/
structure GitHubAPI where
  base_url : String
  headers : List (String × String)

/-- The `GitHubAPI.__init__` constructor: stores the base URL and the
fixed authorization header derived from the token. -/
def GitHubAPI.init (base_url token : String) : GitHubAPI :=
  ⟨base_url, [("Authorization", "token " ++ token)]⟩

/-- Message of the `requests.HTTPError` raised by `raise_for_status` for a
4xx or 5xx response. -/
def httpErrorDetail (code : Nat) (reason url : String) : String :=
  toString code ++ (if code < 500 then " Client Error: " else " Server Error: ")
    ++ reason ++ " for url: " ++ url

/-- The `send_http_request` method: issues the request through the
transport, applies `raise_for_status` (which raises `HTTPError` exactly
for status codes in 400..599), and catches every `RequestException` by
logging it via `handle_request_error` and returning `None`. -/
def send_http_request (api : GitHubAPI) (t : Transport) (url method : String)
    (params : Option Params) : List Event × Option HttpResponse :=
  match t method url api.headers params with
  | TransportResult.exn msg =>
    ([Event.httpRequest method url api.headers params,
      Event.log LogLevel.error ("Error during request: " ++ msg)], none)
  | TransportResult.resp r =>
    if 400 ≤ r.statusCode ∧ r.statusCode < 600 then
      ([Event.httpRequest method url api.headers params,
        Event.log LogLevel.error
          ("Error during request: " ++ httpErrorDetail r.statusCode r.reason url)], none)
    else
      ([Event.httpRequest method url api.headers params,
        Event.log LogLevel.info ("Request successful")], some r)

/-- Message of the `json.JSONDecodeError` raised by `response.json()` when
the body is not a valid JSON document. -/
def jsonDecodeErrorMsg : String := "Expecting value: line 1 column 1 (char 0)"

/-- The `make_request` method: builds the URL as `base_url + endpoint`,
logs the attempt, delegates to `send_http_request`, and returns
`response.json() if response else None`.  The JSON decoding happens
outside any handler, so a decode failure is a raised exception
(`Except.error`). -/
def make_request (api : GitHubAPI) (t : Transport) (endpoint method : String)
    (params : Option Params) : List Event × Except String (Option Json) :=
  let url := api.base_url ++ endpoint
  let pre := Event.log LogLevel.info ("Making a " ++ method ++ " request to " ++ url)
  let evr := send_http_request api t url method params
  match evr.2 with
  | none => (pre :: evr.1, Except.ok none)
  | some r =>
    match parseJson r.body with
    | some j => (pre :: evr.1, Except.ok (some j))
    | none => (pre :: evr.1, Except.error jsonDecodeErrorMsg)

/-- The `get_user_details` method: logs, then
`make_request("users/{username}")` with the default method and params. -/
def get_user_details (api : GitHubAPI) (t : Transport) (username : String) :
    List Event × Except String (Option Json) :=
  let evr := make_request api t ("users/" ++ username) ("GET") none
  (Event.log LogLevel.info ("Fetching user details for " ++ username) :: evr.1, evr.2)

/-- The `get_user_repos` method: logs, then
`make_request("users/{username}/repos")` with the default method and
params. -/
def get_user_repos (api : GitHubAPI) (t : Transport) (username : String) :
    List Event × Except String (Option Json) :=
  let evr := make_request api t ("users/" ++ username ++ "/repos") ("GET") none
  (Event.log LogLevel.info ("Fetching repositories for " ++ username) :: evr.1, evr.2)

/-! ### s3_uploader.py -/

/-- The `S3Uploader` state: the pre-configured bucket name (the boto3
client itself is the storage oracle passed to the operation). -/
structure S3Uploader where
  bucket_name : String

/-- The `upload_data_to_s3` method: calls
`put_object(Body=str(data), Bucket=bucket_name, Key=key)`, logs success
and returns the response; a `BotoCoreError` or `ClientError` is caught,
logged via `log_s3_upload_error`, and `None` is returned. -/
def upload_data_to_s3 (up : S3Uploader) (s3 : S3Service) (data : Option Json)
    (key : String) : List Event × Option Json :=
  let body := strData data
  match s3 up.bucket_name key body with
  | PutResult.resp r =>
    ([Event.s3Put up.bucket_name key body,
      Event.log LogLevel.info ("Data uploaded to " ++ up.bucket_name ++ "/" ++ key)], some r)
  | PutResult.err msg =>
    ([Event.s3Put up.bucket_name key body,
      Event.log LogLevel.error ("Error uploading data to S3: " ++ msg)], none)

/-! ### main.py -/

/-- The success log line of the orchestrator, with the username quoted in
apostrophes as in the f-string of `main.py`. -/
def orchSuccessMsg (username : String) : String :=
  "User Details and Repositories for " ++ apos ++ username ++ apos ++ " uploaded to S3"

/-- The error log line of the orchestrator's blanket handler. -/
def orchErrorMsg (e : String) : String :=
  "An error occurred during data fetching or uploading: " ++ e

/-- The `upload_github_data_to_s3` orchestrator: fetch user details, fetch
user repos, upload details under `{username}_details.json`, upload repos
under `{username}_repos.json`, log the success line; any exception in the
sequence is caught and logged.  The function body has no `return`, so the
Python return value (second component) is always `None`. -/
def upload_github_data_to_s3 (api : GitHubAPI) (t : Transport) (up : S3Uploader)
    (s3 : S3Service) (username : String) : List Event × Option Json :=
  let fd := get_user_details api t username
  match fd.2 with
  | Except.error e => (fd.1 ++ [Event.log LogLevel.error (orchErrorMsg e)], none)
  | Except.ok user_details =>
    let fr := get_user_repos api t username
    match fr.2 with
    | Except.error e => (fd.1 ++ fr.1 ++ [Event.log LogLevel.error (orchErrorMsg e)], none)
    | Except.ok user_repos =>
      let u1 := upload_data_to_s3 up s3 user_details (username ++ "_details.json")
      let u2 := upload_data_to_s3 up s3 user_repos (username ++ "_repos.json")
      (fd.1 ++ fr.1 ++ u1.1 ++ u2.1 ++ [Event.log LogLevel.info (orchSuccessMsg username)], none)

/-! ### Observables over event traces -/

/-- Whether an event is an error-level log line. -/
def isErrorLog : Event → Bool
  | Event.log LogLevel.error _ => true
  | _ => false

/-- The error-level log lines of a trace. -/
def errorLogs (tr : List Event) : List Event := tr.filter isErrorLog

/-- Whether an event is an external call (HTTP request or S3 put). -/
def isCall : Event → Bool
  | Event.httpRequest _ _ _ _ => true
  | Event.s3Put _ _ _ => true
  | _ => false

/-- The external calls of a trace, in order. -/
def callsOf (tr : List Event) : List Event := tr.filter isCall

/-- The `(bucket, key, body)` triples of the S3 put calls of a trace, in
order. -/
def putCalls (tr : List Event) : List (String × String × String) :=
  tr.filterMap fun e =>
    match e with
    | Event.s3Put b k body => some (b, k, body)
    | _ => none

/-- A mocked object store built from the put calls of a trace: the body
most recently put under a bucket and key, if any. -/
def runStore (tr : List Event) (bucket key : String) : Option String :=
  (putCalls tr).foldl
    (fun acc c => if c.1 = bucket ∧ c.2.1 = key then some c.2.2 else acc) none

/-- A transport outcome that `send_http_request` treats as a failure: a
raised `RequestException`, or a response whose status code makes
`raise_for_status` raise (400..599). -/
def transportFailed : TransportResult → Prop
  | TransportResult.exn _ => True
  | TransportResult.resp r => 400 ≤ r.statusCode ∧ r.statusCode < 600

/-- The error detail string carried by the caught exception: the transport
exception message, or the `HTTPError` message built by
`raise_for_status`. -/
def requestErrorDetail (url : String) : TransportResult → String
  | TransportResult.exn msg => msg
  | TransportResult.resp r => httpErrorDetail r.statusCode r.reason url

/-! ### Concrete instances used by witnesses and counterexamples -/

/-- A concretely configured client. -/
def api0 : GitHubAPI := GitHubAPI.init ("https://api.github.com/") ("tok")

/-- A concretely configured uploader. -/
def upW : S3Uploader := ⟨"vendor-bucket"⟩

/-- A transport on which every request raises a connection error. -/
def tConnRefused : Transport := fun _ _ _ _ => TransportResult.exn ("connection refused")

/-- A transport on which every request yields HTTP 304 Not Modified with
an empty JSON object body: a non-2xx status for which `raise_for_status`
does not raise. -/
def t304 : Transport := fun _ _ _ _ =>
  TransportResult.resp ⟨304, "Not Modified", String.mk [lbrace, rbrace]⟩

/-- A transport on which the user-details URL of the client `api5` raises
a connection error while every other URL yields HTTP 200 with a body that
is not valid JSON. -/
def t5 : Transport := fun _ url _ _ =>
  if url = "B/users/octocat" then TransportResult.exn ("connection refused")
  else TransportResult.resp ⟨200, "OK", "not json"⟩

/-- The client configured with the short base URL matching `t5`. -/
def api5 : GitHubAPI := GitHubAPI.init ("B/") ("tok")

/-- A storage service on which every put fails (for example with an access
denial). -/
def s3Fail : S3Service := fun _ _ _ => PutResult.err ("access denied")

/-- A storage service on which every put succeeds with an empty response
structure. -/
def s3Ok : S3Service := fun _ _ _ => PutResult.resp (Json.obj [])

/-- The sample provider payload of the spec scenario. -/
def exJson : Json := Json.obj [("login", Json.str ("octocat")), ("id", Json.num 1)]

/-- A transport on which every request yields HTTP 200 with the sample
payload serialized as a JSON document. -/
def t200 : Transport := fun _ _ _ _ =>
  TransportResult.resp ⟨200, "OK", jsonDumps exJson⟩

/-- A transport on which every request yields HTTP 200 with a body that is
not a valid JSON document. -/
def t200bad : Transport := fun _ _ _ _ => TransportResult.resp ⟨200, "OK", "not json"⟩

/-! ### Trace helper lemmas -/

theorem callsOf_append (a b : List Event) : callsOf (a ++ b) = callsOf a ++ callsOf b := by
  simp [callsOf, List.filter_append]

theorem errorLogs_append (a b : List Event) :
    errorLogs (a ++ b) = errorLogs a ++ errorLogs b := by
  simp [errorLogs, List.filter_append]

theorem putCalls_append (a b : List Event) :
    putCalls (a ++ b) = putCalls a ++ putCalls b := by
  simp [putCalls, List.filterMap_append]

theorem send_http_request_fst_calls (api : GitHubAPI) (t : Transport)
    (url method : String) (params : Option Params) :
    callsOf (send_http_request api t url method params).1 =
      [Event.httpRequest method url api.headers params] := by
  rcases h : t method url api.headers params with msg | r <;>
    simp [send_http_request, h, callsOf, isCall, List.filter]
  split <;> simp [isCall, List.filter]

theorem send_http_request_failure (api : GitHubAPI) (t : Transport)
    (url method : String) (params : Option Params)
    (h : transportFailed (t method url api.headers params)) :
    (send_http_request api t url method params).2 = none ∧
      errorLogs (send_http_request api t url method params).1 =
        [Event.log LogLevel.error
          ("Error during request: " ++ requestErrorDetail url (t method url api.headers params))] := by
  rcases hh : t method url api.headers params with msg | r
  · simp [send_http_request, hh, errorLogs, isErrorLog, List.filter, requestErrorDetail]
  · rw [hh] at h
    simp only [transportFailed] at h
    simp [send_http_request, hh, h, errorLogs, isErrorLog, List.filter, requestErrorDetail]

theorem make_request_fst (api : GitHubAPI) (t : Transport) (endpoint method : String)
    (params : Option Params) :
    (make_request api t endpoint method params).1 =
      Event.log LogLevel.info
          ("Making a " ++ method ++ " request to " ++ (api.base_url ++ endpoint)) ::
        (send_http_request api t (api.base_url ++ endpoint) method params).1 := by
  simp only [make_request]
  rcases h : (send_http_request api t (api.base_url ++ endpoint) method params).2 with _ | r
  · simp [h]
  · rcases h2 : parseJson r.body with _ | j <;> simp [h, h2]

theorem make_request_fst_calls (api : GitHubAPI) (t : Transport) (endpoint method : String)
    (params : Option Params) :
    callsOf (make_request api t endpoint method params).1 =
      [Event.httpRequest method (api.base_url ++ endpoint) api.headers params] := by
  rw [make_request_fst]
  simp [callsOf, List.filter, isCall] at *
  have := send_http_request_fst_calls api t (api.base_url ++ endpoint) method params
  simpa [callsOf] using this

theorem make_request_failure (api : GitHubAPI) (t : Transport) (endpoint method : String)
    (params : Option Params)
    (h : transportFailed (t method (api.base_url ++ endpoint) api.headers params)) :
    (make_request api t endpoint method params).2 = Except.ok none ∧
      errorLogs (make_request api t endpoint method params).1 =
        [Event.log LogLevel.error
          ("Error during request: " ++
            requestErrorDetail (api.base_url ++ endpoint)
              (t method (api.base_url ++ endpoint) api.headers params))] := by
  obtain ⟨h1, h2⟩ := send_http_request_failure api t (api.base_url ++ endpoint) method params h
  constructor
  · simp only [make_request, h1]
  · rw [make_request_fst]
    simpa [errorLogs, List.filter, isErrorLog] using h2

theorem get_user_details_fst_calls (api : GitHubAPI) (t : Transport) (u : String) :
    callsOf (get_user_details api t u).1 =
      [Event.httpRequest ("GET") (api.base_url ++ ("users/" ++ u)) api.headers none] := by
  have h := make_request_fst_calls api t ("users/" ++ u) ("GET") none
  simpa [get_user_details, callsOf, List.filter, isCall] using h

theorem get_user_repos_fst_calls (api : GitHubAPI) (t : Transport) (u : String) :
    callsOf (get_user_repos api t u).1 =
      [Event.httpRequest ("GET") (api.base_url ++ ("users/" ++ u ++ "/repos")) api.headers none] := by
  have h := make_request_fst_calls api t ("users/" ++ u ++ "/repos") ("GET") none
  simpa [get_user_repos, callsOf, List.filter, isCall] using h

theorem send_http_request_putCalls (api : GitHubAPI) (t : Transport)
    (url method : String) (params : Option Params) :
    putCalls (send_http_request api t url method params).1 = [] := by
  rcases h : t method url api.headers params with msg | r <;>
    simp [send_http_request, h, putCalls, List.filterMap]
  split <;> simp [List.filterMap]

theorem make_request_putCalls (api : GitHubAPI) (t : Transport) (endpoint method : String)
    (params : Option Params) :
    putCalls (make_request api t endpoint method params).1 = [] := by
  rw [make_request_fst]
  have h := send_http_request_putCalls api t (api.base_url ++ endpoint) method params
  simpa [putCalls, List.filterMap] using h

theorem get_user_details_putCalls (api : GitHubAPI) (t : Transport) (u : String) :
    putCalls (get_user_details api t u).1 = [] := by
  have h := make_request_putCalls api t ("users/" ++ u) ("GET") none
  simpa [get_user_details, putCalls, List.filterMap] using h

theorem get_user_repos_putCalls (api : GitHubAPI) (t : Transport) (u : String) :
    putCalls (get_user_repos api t u).1 = [] := by
  have h := make_request_putCalls api t ("users/" ++ u ++ "/repos") ("GET") none
  simpa [get_user_repos, putCalls, List.filterMap] using h

theorem upload_putCalls (up : S3Uploader) (s3 : S3Service) (data : Option Json)
    (key : String) :
    putCalls (upload_data_to_s3 up s3 data key).1 = [(up.bucket_name, key, strData data)] := by
  rcases h : s3 up.bucket_name key (strData data) with r | msg <;>
    simp [upload_data_to_s3, h, putCalls, List.filterMap]

theorem upload_fst_calls (up : S3Uploader) (s3 : S3Service) (data : Option Json)
    (key : String) :
    callsOf (upload_data_to_s3 up s3 data key).1 =
      [Event.s3Put up.bucket_name key (strData data)] := by
  rcases h : s3 up.bucket_name key (strData data) with r | msg <;>
    simp [upload_data_to_s3, h, callsOf, isCall, List.filter]

theorem upload_err (up : S3Uploader) (s3 : S3Service) (data : Option Json) (key msg : String)
    (h : s3 up.bucket_name key (strData data) = PutResult.err msg) :
    (upload_data_to_s3 up s3 data key).2 = none ∧
      errorLogs (upload_data_to_s3 up s3 data key).1 =
        [Event.log LogLevel.error ("Error uploading data to S3: " ++ msg)] := by
  simp [upload_data_to_s3, h, errorLogs, isErrorLog, List.filter]

theorem orch_ok_shape (api : GitHubAPI) (t : Transport) (up : S3Uploader) (s3 : S3Service)
    (u : String) (dd rr : Option Json)
    (hd : (get_user_details api t u).2 = Except.ok dd)
    (hr : (get_user_repos api t u).2 = Except.ok rr) :
    upload_github_data_to_s3 api t up s3 u =
      ((get_user_details api t u).1 ++ (get_user_repos api t u).1 ++
          (upload_data_to_s3 up s3 dd (u ++ "_details.json")).1 ++
          (upload_data_to_s3 up s3 rr (u ++ "_repos.json")).1 ++
          [Event.log LogLevel.info (orchSuccessMsg u)],
        none) := by
  simp only [upload_github_data_to_s3, hd, hr]

theorem orch_err1_shape (api : GitHubAPI) (t : Transport) (up : S3Uploader) (s3 : S3Service)
    (u e : String) (hd : (get_user_details api t u).2 = Except.error e) :
    upload_github_data_to_s3 api t up s3 u =
      ((get_user_details api t u).1 ++ [Event.log LogLevel.error (orchErrorMsg e)], none) := by
  simp only [upload_github_data_to_s3, hd]

theorem orch_err2_shape (api : GitHubAPI) (t : Transport) (up : S3Uploader) (s3 : S3Service)
    (u e : String) (dd : Option Json)
    (hd : (get_user_details api t u).2 = Except.ok dd)
    (hr : (get_user_repos api t u).2 = Except.error e) :
    upload_github_data_to_s3 api t up s3 u =
      ((get_user_details api t u).1 ++ (get_user_repos api t u).1 ++
          [Event.log LogLevel.error (orchErrorMsg e)],
        none) := by
  simp only [upload_github_data_to_s3, hd, hr]

theorem make_request_2xx_decodes (api : GitHubAPI) (t : Transport) (endpoint method : String)
    (params : Option Params) (r : HttpResponse) (j : Json)
    (ht : t method (api.base_url ++ endpoint) api.headers params = TransportResult.resp r)
    (hs : ¬(400 ≤ r.statusCode ∧ r.statusCode < 600))
    (hj : parseJson r.body = some j) :
    (make_request api t endpoint method params).2 = Except.ok (some j) := by
  have hshr : (send_http_request api t (api.base_url ++ endpoint) method params).2 = some r := by
    simp [send_http_request, ht, hs]
  simp only [make_request, hshr, hj]

/-! ### Claim theorems -/

/-- C1 counterexample: a mocked HTTP 304 Not Modified response is not a
2xx response, yet `make_request` does not return the absent sentinel and
logs no error: `raise_for_status` raises only for status codes 400..599,
so the 304 response is treated as success and its body is decoded and
returned. -/
theorem make_request_norm_counterexample :
    (t304 ("GET") (api0.base_url ++ ("users/octocat")) api0.headers none =
        TransportResult.resp ⟨304, "Not Modified", String.mk [lbrace, rbrace]⟩) ∧
      ¬(200 ≤ 304 ∧ 304 < 300) ∧
      (make_request api0 t304 ("users/octocat") ("GET") none).2 =
        Except.ok (some (Json.obj [])) ∧
      errorLogs (make_request api0 t304 ("users/octocat") ("GET") none).1 = [] :=
  ⟨rfl, by decide, rfl, rfl⟩

/-- C1 (amended): for every endpoint, method and params, whenever the
transport raises a `RequestException` or returns a response with status
code 400..599 (the statuses for which `raise_for_status` raises),
`make_request` returns the absent sentinel `None` without raising, and
the trace holds exactly one error log entry, containing the error
detail. -/
theorem make_request_failure_returns_absent (api : GitHubAPI) (t : Transport)
    (endpoint method : String) (params : Option Params)
    (h : transportFailed (t method (api.base_url ++ endpoint) api.headers params)) :
    (make_request api t endpoint method params).2 = Except.ok none ∧
      errorLogs (make_request api t endpoint method params).1 =
        [Event.log LogLevel.error
          ("Error during request: " ++
            requestErrorDetail (api.base_url ++ endpoint)
              (t method (api.base_url ++ endpoint) api.headers params))] :=
  make_request_failure api t endpoint method params h

/-- C1 witness: on a transport that raises a connection error,
`make_request` returns `None` and logs exactly one error entry carrying
the exception message. -/
theorem make_request_failure_returns_absent_witness :
    transportFailed
        (tConnRefused ("GET") (api0.base_url ++ ("users/octocat")) api0.headers none) ∧
      (make_request api0 tConnRefused ("users/octocat") ("GET") none).2 = Except.ok none ∧
      errorLogs (make_request api0 tConnRefused ("users/octocat") ("GET") none).1 =
        [Event.log LogLevel.error ("Error during request: " ++ "connection refused")] :=
  ⟨True.intro,
    make_request_failure_returns_absent api0 tConnRefused ("users/octocat") ("GET") none
      True.intro⟩

/-- C2: `upload_data_to_s3` always issues exactly one put call carrying
the textual representation `str(data)` as body, under the given key in
the pre-configured bucket; and whenever the storage layer fails, the
error is caught, exactly one error entry carrying its message is logged,
and the absent sentinel `None` is returned. -/
theorem upload_data_to_s3_contract (up : S3Uploader) (s3 : S3Service)
    (data : Option Json) (key : String) :
    putCalls (upload_data_to_s3 up s3 data key).1 =
        [(up.bucket_name, key, strData data)] ∧
      ∀ msg, s3 up.bucket_name key (strData data) = PutResult.err msg →
        (upload_data_to_s3 up s3 data key).2 = none ∧
          errorLogs (upload_data_to_s3 up s3 data key).1 =
            [Event.log LogLevel.error ("Error uploading data to S3: " ++ msg)] :=
  ⟨upload_putCalls up s3 data key, fun msg h => upload_err up s3 data key msg h⟩

/-- C2 witness: uploading the value 1 under key k to a failing store
issues the put call with body 1 rendered as text, returns `None` and
logs the access-denial error. -/
theorem upload_data_to_s3_contract_witness :
    putCalls (upload_data_to_s3 upW s3Fail (some (Json.num 1)) ("k")).1 =
        [("vendor-bucket", "k", "1")] ∧
      (s3Fail ("vendor-bucket") ("k") ("1") = PutResult.err ("access denied")) ∧
      (upload_data_to_s3 upW s3Fail (some (Json.num 1)) ("k")).2 = none ∧
      errorLogs (upload_data_to_s3 upW s3Fail (some (Json.num 1)) ("k")).1 =
        [Event.log LogLevel.error ("Error uploading data to S3: " ++ "access denied")] :=
  ⟨(upload_data_to_s3_contract upW s3Fail (some (Json.num 1)) ("k")).1, rfl,
    (upload_data_to_s3_contract upW s3Fail (some (Json.num 1)) ("k")).2
      ("access denied") rfl⟩

/-- C9: on a transport returning a successful HTTP 200 response whose body
is not a valid JSON document, `make_request` raises the JSON decode
exception to its caller, because `response.json()` runs outside the
try-block guarding the request. -/
theorem make_request_raises_on_invalid_json :
    (t200bad ("GET") (api0.base_url ++ ("users/octocat")) api0.headers none =
        TransportResult.resp ⟨200, "OK", "not json"⟩) ∧
      parseJson ("not json") = none ∧
      (make_request api0 t200bad ("users/octocat") ("GET") none).2 =
        Except.error jsonDecodeErrorMsg :=
  ⟨rfl, rfl, rfl⟩

theorem callsOf_log_nil (lvl : LogLevel) (msg : String) :
    callsOf [Event.log lvl msg] = [] := rfl

theorem putCalls_log_nil (lvl : LogLevel) (msg : String) :
    putCalls [Event.log lvl msg] = [] := rfl

/-- C3: for every username and every behavior of the transport and the
store, the orchestrator returns `None`; when no exception arises, its
external calls are exactly the fetch of user details, the fetch of user
repos, the upload of the details, the upload of the repos, in that
order, and the trace ends with the single success line naming the
username; when an exception arises in a fetch, it is caught and the trace
ends with the error line carrying its message. -/
theorem upload_github_data_to_s3_sequence (api : GitHubAPI) (t : Transport)
    (up : S3Uploader) (s3 : S3Service) (u : String) :
    (upload_github_data_to_s3 api t up s3 u).2 = none ∧
      ((∃ dd rr,
          (get_user_details api t u).2 = Except.ok dd ∧
          (get_user_repos api t u).2 = Except.ok rr ∧
          callsOf (upload_github_data_to_s3 api t up s3 u).1 =
            [Event.httpRequest ("GET") (api.base_url ++ ("users/" ++ u)) api.headers none,
             Event.httpRequest ("GET") (api.base_url ++ ("users/" ++ u ++ "/repos"))
               api.headers none,
             Event.s3Put up.bucket_name (u ++ "_details.json") (strData dd),
             Event.s3Put up.bucket_name (u ++ "_repos.json") (strData rr)] ∧
          (upload_github_data_to_s3 api t up s3 u).1.getLast? =
            some (Event.log LogLevel.info (orchSuccessMsg u))) ∨
        (∃ e,
          ((get_user_details api t u).2 = Except.error e ∨
            (get_user_repos api t u).2 = Except.error e) ∧
          (upload_github_data_to_s3 api t up s3 u).1.getLast? =
            some (Event.log LogLevel.error (orchErrorMsg e)))) := by
  rcases hd : (get_user_details api t u).2 with e | dd
  · have hs := orch_err1_shape api t up s3 u e hd
    refine ⟨by rw [hs], Or.inr ⟨e, Or.inl rfl, ?_⟩⟩
    rw [hs]
    exact List.getLast?_concat _
  · rcases hr : (get_user_repos api t u).2 with e | rr
    · have hs := orch_err2_shape api t up s3 u e dd hd hr
      refine ⟨by rw [hs], Or.inr ⟨e, Or.inr rfl, ?_⟩⟩
      rw [hs]
      exact List.getLast?_concat _
    · have hs := orch_ok_shape api t up s3 u dd rr hd hr
      refine ⟨by rw [hs], Or.inl ⟨dd, rr, rfl, rfl, ?_, ?_⟩⟩
      · rw [hs]
        simp only [callsOf_append, get_user_details_fst_calls, get_user_repos_fst_calls,
          upload_fst_calls, callsOf_log_nil, List.append_nil, List.cons_append,
          List.nil_append, List.singleton_append]
      · rw [hs]
        exact List.getLast?_concat _

/-- C4: the client issues its request to the URL formed by plain string
concatenation of the base URL and the endpoint, with the fixed header
dictionary holding the token-derived authorization entry attached;
`get_user_details` targets the endpoint users/username and
`get_user_repos` targets users/username/repos, for every username string
without validation. -/
theorem request_url_and_headers (base token endpoint method u : String)
    (params : Option Params) (t : Transport) :
    callsOf (make_request (GitHubAPI.init base token) t endpoint method params).1 =
        [Event.httpRequest method (base ++ endpoint)
          [("Authorization", "token " ++ token)] params] ∧
      callsOf (get_user_details (GitHubAPI.init base token) t u).1 =
        [Event.httpRequest ("GET") (base ++ ("users/" ++ u))
          [("Authorization", "token " ++ token)] none] ∧
      callsOf (get_user_repos (GitHubAPI.init base token) t u).1 =
        [Event.httpRequest ("GET") (base ++ ("users/" ++ u ++ "/repos"))
          [("Authorization", "token " ++ token)] none] :=
  ⟨make_request_fst_calls (GitHubAPI.init base token) t endpoint method params,
    get_user_details_fst_calls (GitHubAPI.init base token) t u,
    get_user_repos_fst_calls (GitHubAPI.init base token) t u⟩

/-- C5 counterexample: the details fetch returns the absent sentinel (its
transport call raises a connection error), yet no upload at all is
invoked, because the repos fetch hits a 200 response with an invalid JSON
body and the decode exception aborts the sequence before the uploads. -/
theorem orch_absent_fetch_upload_skipped :
    (get_user_details api5 t5 ("octocat")).2 = Except.ok none ∧
      putCalls (upload_github_data_to_s3 api5 t5 upW s3Ok ("octocat")).1 = [] ∧
      (upload_github_data_to_s3 api5 t5 upW s3Ok ("octocat")).1.getLast? =
        some (Event.log LogLevel.error (orchErrorMsg jsonDecodeErrorMsg)) :=
  ⟨rfl, rfl, rfl⟩

/-- C5 (amended): provided neither fetch raises (in particular neither
JSON decode fails), the orchestrator never skips an upload: it invokes
both uploads with whatever the fetches returned, so a fetch that returned
the absent sentinel produces an upload whose body is the stringified
absent marker. -/
theorem orch_uploads_absent_marker (api : GitHubAPI) (t : Transport) (up : S3Uploader)
    (s3 : S3Service) (u : String) (dd rr : Option Json)
    (hd : (get_user_details api t u).2 = Except.ok dd)
    (hr : (get_user_repos api t u).2 = Except.ok rr) :
    putCalls (upload_github_data_to_s3 api t up s3 u).1 =
        [(up.bucket_name, u ++ "_details.json", strData dd),
          (up.bucket_name, u ++ "_repos.json", strData rr)] ∧
      strData none = "None" := by
  refine ⟨?_, rfl⟩
  rw [orch_ok_shape api t up s3 u dd rr hd hr]
  simp only [putCalls_append, get_user_details_putCalls, get_user_repos_putCalls,
    upload_putCalls, putCalls_log_nil, List.append_nil, List.nil_append,
    List.cons_append, List.singleton_append]

/-- C5 witness: with a transport on which every request raises, both
fetches return the absent sentinel and both uploads are still invoked,
with the body the stringified absent marker. -/
theorem orch_uploads_absent_marker_witness :
    (get_user_details api0 tConnRefused ("octocat")).2 = Except.ok none ∧
      (get_user_repos api0 tConnRefused ("octocat")).2 = Except.ok none ∧
      putCalls (upload_github_data_to_s3 api0 tConnRefused upW s3Ok ("octocat")).1 =
        [("vendor-bucket", "octocat_details.json", "None"),
          ("vendor-bucket", "octocat_repos.json", "None")] ∧
      strData none = "None" :=
  ⟨rfl, rfl,
    (orch_uploads_absent_marker api0 tConnRefused upW s3Ok ("octocat") none none rfl rfl).1,
    (orch_uploads_absent_marker api0 tConnRefused upW s3Ok ("octocat") none none rfl rfl).2⟩

/-- C6: for every data value and key, the body stored by
`upload_data_to_s3` and read back from the mocked store is exactly the
textual `str` form of the value; and on the sample structured payload the
stored form differs from the value re-serialized as a JSON document and
is itself not a valid JSON document, while the re-serialized form is. -/
theorem upload_roundtrip_stringified :
    (∀ (up : S3Uploader) (s3 : S3Service) (data : Option Json) (key : String),
        runStore (upload_data_to_s3 up s3 data key).1 up.bucket_name key =
          some (strData data)) ∧
      pyStr exJson ≠ jsonDumps exJson ∧
      parseJson (pyStr exJson) = none ∧
      parseJson (jsonDumps exJson) = some exJson := by
  refine ⟨?_, by decide, rfl, rfl⟩
  intro up s3 data key
  simp [runStore, upload_putCalls]

/-- C7: whenever the orchestrator reaches its uploads, the two upload keys
are exactly the username followed by the two fixed suffixes, in that
order. -/
theorem orch_upload_keys (api : GitHubAPI) (t : Transport) (up : S3Uploader)
    (s3 : S3Service) (u : String) (dd rr : Option Json)
    (hd : (get_user_details api t u).2 = Except.ok dd)
    (hr : (get_user_repos api t u).2 = Except.ok rr) :
    (putCalls (upload_github_data_to_s3 api t up s3 u).1).map (fun c => c.2.1) =
      [u ++ "_details.json", u ++ "_repos.json"] := by
  rw [(orch_uploads_absent_marker api t up s3 u dd rr hd hr).1]
  simp

/-- C7 witness: for username octocat the two upload keys are exactly
octocat_details.json and octocat_repos.json. -/
theorem orch_upload_keys_witness :
    (get_user_details api0 tConnRefused ("octocat")).2 = Except.ok none ∧
      (putCalls (upload_github_data_to_s3 api0 tConnRefused upW s3Ok ("octocat")).1).map
          (fun c => c.2.1) =
        ["octocat_details.json", "octocat_repos.json"] :=
  ⟨rfl, orch_upload_keys api0 tConnRefused upW s3Ok ("octocat") none none rfl rfl⟩

/-- C8: whenever the transport answers the details URL or the repos URL
with an HTTP 200 response whose body decodes to a JSON value, the
corresponding fetch returns exactly that decoded value, with no
transformation. -/
theorem fetch_200_returns_decoded_body (api : GitHubAPI) (t : Transport) (u : String)
    (r r2 : HttpResponse) (j j2 : Json) :
    (t ("GET") (api.base_url ++ ("users/" ++ u)) api.headers none = TransportResult.resp r →
      r.statusCode = 200 → parseJson r.body = some j →
      (get_user_details api t u).2 = Except.ok (some j)) ∧
      (t ("GET") (api.base_url ++ ("users/" ++ u ++ "/repos")) api.headers none =
          TransportResult.resp r2 →
        r2.statusCode = 200 → parseJson r2.body = some j2 →
        (get_user_repos api t u).2 = Except.ok (some j2)) := by
  constructor
  · intro ht hs hj
    have := make_request_2xx_decodes api t ("users/" ++ u) ("GET") none r j ht
      (by rw [hs]; omega) hj
    simpa [get_user_details] using this
  · intro ht hs hj
    have := make_request_2xx_decodes api t ("users/" ++ u ++ "/repos") ("GET") none r2 j2 ht
      (by rw [hs]; omega) hj
    simpa [get_user_repos] using this

/-- C8 witness: on a transport answering every URL with HTTP 200 and the
sample payload serialized as JSON, both fetches return the decoded sample
payload unchanged. -/
theorem fetch_200_returns_decoded_body_witness :
    (t200 ("GET") (api0.base_url ++ ("users/" ++ "octocat")) api0.headers none =
        TransportResult.resp ⟨200, "OK", jsonDumps exJson⟩) ∧
      parseJson (jsonDumps exJson) = some exJson ∧
      (get_user_details api0 t200 ("octocat")).2 = Except.ok (some exJson) ∧
      (get_user_repos api0 t200 ("octocat")).2 = Except.ok (some exJson) :=
  ⟨rfl, rfl,
    (fetch_200_returns_decoded_body api0 t200 ("octocat") ⟨200, "OK", jsonDumps exJson⟩
        ⟨200, "OK", jsonDumps exJson⟩ exJson exJson).1 rfl rfl rfl,
    (fetch_200_returns_decoded_body api0 t200 ("octocat") ⟨200, "OK", jsonDumps exJson⟩
        ⟨200, "OK", jsonDumps exJson⟩ exJson exJson).2 rfl rfl rfl⟩

/-- C10: whenever neither fetch raises, the orchestrator trace ends with
the success line naming the username, regardless of what the fetches
returned and regardless of the storage outcome. -/
theorem orch_success_log_unconditional (api : GitHubAPI) (t : Transport)
    (up : S3Uploader) (s3 : S3Service) (u : String) (dd rr : Option Json)
    (hd : (get_user_details api t u).2 = Except.ok dd)
    (hr : (get_user_repos api t u).2 = Except.ok rr) :
    (upload_github_data_to_s3 api t up s3 u).1.getLast? =
      some (Event.log LogLevel.info (orchSuccessMsg u)) := by
  rw [orch_ok_shape api t up s3 u dd rr hd hr]
  exact List.getLast?_concat _

/-- C10 witness: with a transport on which every request raises and a
store on which every put fails, both fetches return the absent sentinel
and both uploads return the absent sentinel, yet the trace still ends
with the success line. -/
theorem orch_success_log_unconditional_witness :
    (get_user_details api0 tConnRefused ("octocat")).2 = Except.ok none ∧
      (get_user_repos api0 tConnRefused ("octocat")).2 = Except.ok none ∧
      (upload_data_to_s3 upW s3Fail none ("octocat_details.json")).2 = none ∧
      (upload_data_to_s3 upW s3Fail none ("octocat_repos.json")).2 = none ∧
      (upload_github_data_to_s3 api0 tConnRefused upW s3Fail ("octocat")).1.getLast? =
        some (Event.log LogLevel.info (orchSuccessMsg ("octocat"))) :=
  ⟨rfl, rfl, rfl, rfl,
    orch_success_log_unconditional api0 tConnRefused upW s3Fail ("octocat") none none rfl rfl⟩
